import Mathlib

/-!
Verification of the waffle_utils feature-flag layer, the lang_pref language
API, and the rate-limit seeding migration of this repository.

The Python modules are shallowly embedded as executable Lean definitions:

* The per-request cache returned by `get_request_cache('WaffleNamespace')` is
  modelled as a `RequestCacheNS` record holding the two lazily-created
  sub-dictionaries `switches` and `flags` (Python dicts from namespaced
  names to booleans, modelled as association lists with first-match lookup
  and in-place update, exactly like dict get/set on string keys).
* The external stores (`waffle.switch_is_active`, `waffle.flag_is_active`,
  `CourseOverrideWaffleFlagModel.override_value`) are parameters of the
  evaluation functions: arbitrary functions from names (and course keys) to
  values.  Evaluation results are instrumented with booleans recording
  whether the callback and/or the external waffle store were consulted.
* Python's `assert` statements are modelled by returning
  `Except.error "AssertionError: ..."` from the embedded function.
-/

/-- Python dict from (namespaced) string names to booleans: association list,
first binding for a key wins, mirroring `dict.get` / `dict.__setitem__`. -/
abbrev BoolDict := List (String × Bool)

/-- Python `d.get(k)` returning `None` (here `none`) when the key is absent. -/
def dictGet : BoolDict → String → Option Bool
  | [], _ => none
  | (k', v) :: rest, k => if k' = k then some v else dictGet rest k

/-- Python `d[k] = v`: replace the first binding of `k`, or append a new one. -/
def dictSet : BoolDict → String → Bool → BoolDict
  | [], k, v => [(k, v)]
  | (k', v') :: rest, k, v =>
      if k' = k then (k, v) :: rest else (k', v') :: dictSet rest k v

/-- Lexicographic comparison of char lists by code point, the order Python
uses when comparing strings with `<=` (and hence in `list.sort` and
`sorted`). -/
def charListLe : List Char → List Char → Bool
  | [], _ => true
  | _ :: _, [] => false
  | a :: as, b :: bs => if a < b then true else if b < a then false else charListLe as bs

/-- Python string comparison `a <= b` (lexicographic by code point). -/
def pyLe (a b : String) : Prop := charListLe a.data b.data = true

instance : DecidableRel pyLe :=
  fun a b => inferInstanceAs (Decidable (charListLe a.data b.data = true))

/-- Comparison of `(code, name)` pairs by their second component, modelling
Python's `sorted(languages, key=lambda lang: lang[1])`. -/
def nameLe (a b : String × String) : Prop := pyLe a.2 b.2

instance : DecidableRel nameLe := fun a b => inferInstanceAs (Decidable (pyLe a.2 b.2))

/-- The request cache dictionary returned by
`get_request_cache('WaffleNamespace')`, with its two sub-dictionaries
(`setdefault('switches', {})` and `setdefault('flags', {})`).  There is one
such record per request, shared by every `WaffleNamespace` instance. -/
structure RequestCacheNS where
  switches : BoolDict
  flags : BoolDict
deriving DecidableEq

/-- A `WaffleNamespace` instance: its `namespace` string attribute, plus an
`oid` field standing for the Python object's identity, so that two distinct
instances carrying equal namespace strings are representable.  No method
reads `oid`.  The `log_prefix` attribute only feeds log messages and is
omitted. -/
structure WaffleNamespace where
  «namespace» : String
  oid : Nat
deriving DecidableEq

/-- Embeds `WaffleNamespace.__init__`: `assert namespace` fails on a falsy
(empty) namespace string, otherwise the instance is created. -/
def WaffleNamespace.init (ns : String) (oid : Nat) : Except String WaffleNamespace :=
  if ns = "" then Except.error "AssertionError: The namespace is required."
  else Except.ok ⟨ns, oid⟩

/-- Embeds `WaffleNamespace._namespaced_name`:
`u'{}.{}'.format(self.namespace, setting_name)`. -/
def WaffleNamespace._namespaced_name (self : WaffleNamespace) (setting_name : String) : String :=
  self.«namespace» ++ "." ++ setting_name

/-- Result of `WaffleSwitchNamespace.is_enabled`, instrumented with whether
`waffle.switch_is_active` was consulted, together with the request cache
after the call. -/
structure SwitchEval where
  value : Bool
  consultedWaffle : Bool
  cache : RequestCacheNS
deriving DecidableEq

/-- Embeds `WaffleSwitchNamespace.is_enabled`: look the namespaced name up in
the request-cached `switches` dict; on a miss consult
`waffle.switch_is_active` (the parameter `switch_is_active`) and store the
result. -/
def WaffleSwitchNamespace.is_enabled (switch_is_active : String → Bool)
    (self : WaffleNamespace) (cache : RequestCacheNS) (switch_name : String) : SwitchEval :=
  let namespaced_switch_name := self._namespaced_name switch_name
  match dictGet cache.switches namespaced_switch_name with
  | some value => ⟨value, false, cache⟩
  | none =>
      let value := switch_is_active namespaced_switch_name
      ⟨value, true, ⟨dictSet cache.switches namespaced_switch_name value, cache.flags⟩⟩

/-- Embeds `WaffleSwitchNamespace.override_for_request`: unconditionally set
the request-cache value of the namespaced switch. -/
def WaffleSwitchNamespace.override_for_request (self : WaffleNamespace)
    (cache : RequestCacheNS) (switch_name : String) (active : Bool) : RequestCacheNS :=
  ⟨dictSet cache.switches (self._namespaced_name switch_name) active, cache.flags⟩

/-- Final state of the `WaffleSwitchNamespace.override` context manager: the
request cache and the external switch store after the scope has exited, and
whether an exception raised in the body is propagating. -/
structure OverrideResult where
  cache : RequestCacheNS
  store : String → Bool
  raised : Bool

/-- Embeds the `WaffleSwitchNamespace.override` context manager.  The body of
the `with` block is a function from the store in effect during the scope and
the cache to the cache it leaves behind plus a flag saying whether it raised.
Mirroring the source: `previous_active = self.is_enabled(switch_name)` (which
may itself populate the cache), then `override_for_request(switch_name,
active)`, then `override_in_model` (the nested `waffle_override_switch` scope
forces the persisted value during the body and restores it on any exit), and
in the `finally` clause `override_for_request(switch_name, previous_active)`. -/
def WaffleSwitchNamespace.override (switch_is_active : String → Bool)
    (self : WaffleNamespace) (cache : RequestCacheNS) (switch_name : String) (active : Bool)
    (body : (String → Bool) → RequestCacheNS → RequestCacheNS × Bool) : OverrideResult :=
  let e := WaffleSwitchNamespace.is_enabled switch_is_active self cache switch_name
  let previous_active := e.value
  let c1 := WaffleSwitchNamespace.override_for_request self e.cache switch_name active
  let storeDuring := fun name =>
    if name = self._namespaced_name switch_name then active else switch_is_active name
  let bodyResult := body storeDuring c1
  ⟨WaffleSwitchNamespace.override_for_request self bodyResult.1 switch_name previous_active,
    switch_is_active, bodyResult.2⟩

/-- Result of `WaffleFlagNamespace.is_enabled`, instrumented with whether the
`check_before_waffle_callback` and/or `waffle.flag_is_active` were consulted,
together with the request cache after the call. -/
structure FlagEval where
  value : Bool
  consultedCallback : Bool
  consultedWaffle : Bool
  cache : RequestCacheNS
deriving DecidableEq

/-- Embeds `WaffleFlagNamespace.is_enabled`: request-cache lookup first; on a
miss the optional `check_before_waffle_callback` is consulted, and only if it
is absent or returns `None` is `waffle.flag_is_active` (the parameter
`flag_is_active`) queried; the resolved value is stored in the cache. -/
def WaffleFlagNamespace.is_enabled (flag_is_active : String → Bool)
    (self : WaffleNamespace) (cache : RequestCacheNS) (flag_name : String)
    (check_before_waffle_callback : Option (String → Option Bool)) : FlagEval :=
  let namespaced_flag_name := self._namespaced_name flag_name
  match dictGet cache.flags namespaced_flag_name with
  | some value => ⟨value, false, false, cache⟩
  | none =>
      match check_before_waffle_callback with
      | some callback =>
          match callback namespaced_flag_name with
          | some value =>
              ⟨value, true, false, ⟨cache.switches, dictSet cache.flags namespaced_flag_name value⟩⟩
          | none =>
              let value := flag_is_active namespaced_flag_name
              ⟨value, true, true, ⟨cache.switches, dictSet cache.flags namespaced_flag_name value⟩⟩
      | none =>
          let value := flag_is_active namespaced_flag_name
          ⟨value, false, true, ⟨cache.switches, dictSet cache.flags namespaced_flag_name value⟩⟩

/-- A `WaffleFlag` instance: a flag namespace plus the flag's short name. -/
structure WaffleFlag where
  waffle_namespace : WaffleNamespace
  flag_name : String
deriving DecidableEq

/-- Embeds `WaffleFlag.is_enabled`: forwards to the namespace with no
callback. -/
def WaffleFlag.is_enabled (flag_is_active : String → Bool) (self : WaffleFlag)
    (cache : RequestCacheNS) : FlagEval :=
  WaffleFlagNamespace.is_enabled flag_is_active self.waffle_namespace cache self.flag_name none

/-- Course identifiers (`CourseKey`), opaque to this code. -/
abbrev CourseKey := String

/-- Modelled from the spec: `CourseOverrideWaffleFlagModel.override_value`
(the models.py file is not part of the excerpt) returns one of the choices
`on`, `off` or `unset` for a (namespaced flag name, course id) pair — the
course override record is "(flag key, course identifier) → one of {force-on,
force-off, not-forced}". -/
inductive OverrideChoice
  | on
  | off
  | unset
deriving DecidableEq

/-- Possible arguments to `CourseOverrideWaffleFlag.is_enabled(course_id)` in
the dynamically-typed source: the default `None`, a genuine `CourseKey`, or
any other non-`CourseKey` object (represented by its string form). -/
inductive CourseIdArg
  | noneArg
  | courseKey (k : CourseKey)
  | otherObject (s : String)
deriving DecidableEq

/-- Python `str(course_id)` for the argument, used in the assertion message. -/
def CourseIdArg.reprStr : CourseIdArg → String
  | .noneArg => "None"
  | .courseKey k => k
  | .otherObject s => s

/-- Embeds the closure built by
`CourseOverrideWaffleFlag._get_course_override_callback`: maps the stored
override choice for (namespaced flag name, course id) to `True`/`False`/
`None`. -/
def CourseOverrideWaffleFlag.course_override_callback
    (override_value : String → CourseKey → OverrideChoice) (course_id : CourseKey) :
    String → Option Bool :=
  fun namespaced_flag_name =>
    match override_value namespaced_flag_name course_id with
    | OverrideChoice.on => some true
    | OverrideChoice.off => some false
    | OverrideChoice.unset => none

/-- Embeds `CourseOverrideWaffleFlag.is_enabled`: first
`assert issubclass(type(course_id), CourseKey)` (an `AssertionError` for any
non-`CourseKey` argument, before any cache or store is consulted), then
delegate to `WaffleFlagNamespace.is_enabled` with the course-override
callback. -/
def CourseOverrideWaffleFlag.is_enabled
    (override_value : String → CourseKey → OverrideChoice) (flag_is_active : String → Bool)
    (self : WaffleFlag) (cache : RequestCacheNS) (course_id : CourseIdArg) :
    Except String FlagEval :=
  match course_id with
  | CourseIdArg.courseKey k =>
      Except.ok (WaffleFlagNamespace.is_enabled flag_is_active self.waffle_namespace cache
        self.flag_name
        (some (CourseOverrideWaffleFlag.course_override_callback override_value k)))
  | arg =>
      Except.error
        ("AssertionError: The course_id '" ++ arg.reprStr ++ "' must be a CourseKey.")

namespace lang_pref

/-- A `(language code, display name)` pair from the settings catalogs,
modelling the `Language` named tuple of lang_pref/api.py. -/
abbrev Language := String × String

/-- Embeds `released_languages()` from lang_pref/api.py.  Its inputs — the
dark-lang released codes list, `settings.LANGUAGE_CODE` and
`settings.LANGUAGES` — are parameters.  If the default code is not among the
released codes it is appended and the code list re-sorted (Python
`list.sort()`), then the catalog is filtered to entries whose code is in the
list, in catalog order. -/
def released_languages (released_language_codes : List String)
    (default_language_code : String) (LANGUAGES : List Language) : List Language :=
  let codes :=
    if default_language_code ∉ released_language_codes then
      List.insertionSort pyLe (released_language_codes ++ [default_language_code])
    else released_language_codes
  LANGUAGES.filter (fun language_info => decide (language_info.1 ∈ codes))

/-- Embeds `all_languages()` from lang_pref/api.py: translate every display
name of `settings.ALL_LANGUAGES` with the active locale's `ugettext` (the
parameter), then stable-sort the pairs by translated name (Python
`sorted(languages, key=lambda lang: lang[1])`). -/
def all_languages (ugettext : String → String) (ALL_LANGUAGES : List Language) : List Language :=
  let languages := ALL_LANGUAGES.map (fun lang => (lang.1, ugettext lang.2))
  List.insertionSort nameLe languages

end lang_pref

/-- A row of the `RateLimitConfiguration` table. -/
structure RateLimitRow where
  enabled : Bool
deriving DecidableEq

/-- Embeds `forwards` of migration 0002_data__default_rate_limit_config: if
no row exists (`not objects.exists()`), create one with `enabled=True`;
otherwise leave the table untouched. -/
def forwards (objects : List RateLimitRow) : List RateLimitRow :=
  if objects.isEmpty then objects ++ [⟨true⟩] else objects

/-- Concrete namespace instance used to evaluate the theorems. -/
def exNamespace : WaffleNamespace := ⟨"ns", 0⟩

/-- A second, distinct instance carrying the same namespace string. -/
def exNamespaceB : WaffleNamespace := ⟨"ns", 1⟩

/-- Concrete course-aware flag used to evaluate the theorems. -/
def exFlag : WaffleFlag := ⟨exNamespace, "f"⟩

/-- Concrete course-override store: force-on for course "course-A" on every
flag, no override otherwise. -/
def exOverrideStore : String → CourseKey → OverrideChoice :=
  fun _ c => if c = "course-A" then OverrideChoice.on else OverrideChoice.unset

/-- Concrete global store in which every flag and switch is off. -/
def exStoreOff : String → Bool := fun _ => false

/-- Concrete two-language catalog used to evaluate the theorems. -/
def exCatalog : List lang_pref.Language := [("de", "German"), ("fr", "French")]

/-- Concrete German-locale translation function. -/
def exGettextDe : String → String :=
  fun s => if s = "German" then "Deutsch" else if s = "French" then "Französisch" else s

/-- The empty request cache a fresh request starts from. -/
def exEmptyCache : RequestCacheNS := ⟨[], []⟩

theorem dictGet_dictSet_self (d : BoolDict) (k : String) (v : Bool) :
    dictGet (dictSet d k v) k = some v := by
  induction d with
  | nil => simp [dictGet, dictSet]
  | cons kv rest ih =>
      obtain ⟨k', v'⟩ := kv
      by_cases h : k' = k
      · simp [dictSet, h, dictGet]
      · simp [dictSet, h, dictGet, ih]

theorem dictSet_dictSet (d : BoolDict) (k : String) (a b : Bool) :
    dictSet (dictSet d k a) k b = dictSet d k b := by
  induction d with
  | nil => simp [dictSet]
  | cons kv rest ih =>
      obtain ⟨k', v'⟩ := kv
      by_cases h : k' = k
      · simp [dictSet, h]
      · simp [dictSet, h, ih]

theorem dictSet_self_of_get (d : BoolDict) (k : String) (v : Bool)
    (h : dictGet d k = some v) : dictSet d k v = d := by
  induction d with
  | nil => simp [dictGet] at h
  | cons kv rest ih =>
      obtain ⟨k', v'⟩ := kv
      by_cases hk : k' = k
      · subst hk
        simp [dictGet] at h
        simp [dictSet, h]
      · simp [dictGet, hk] at h
        simp [dictSet, hk, ih h]

theorem flag_is_enabled_caches (flag_is_active : String → Bool)
    (cb : Option (String → Option Bool)) (self : WaffleNamespace)
    (cache : RequestCacheNS) (flag_name : String) :
    dictGet (WaffleFlagNamespace.is_enabled flag_is_active self cache flag_name cb).cache.flags
        (self._namespaced_name flag_name) =
      some (WaffleFlagNamespace.is_enabled flag_is_active self cache flag_name cb).value ∧
    (WaffleFlagNamespace.is_enabled flag_is_active self cache flag_name cb).cache.switches =
      cache.switches := by
  unfold WaffleFlagNamespace.is_enabled
  cases hget : dictGet cache.flags (self._namespaced_name flag_name) with
  | some v => simp [hget]
  | none =>
      cases cb with
      | none => simp [hget, dictGet_dictSet_self]
      | some callback =>
          cases hcb : callback (self._namespaced_name flag_name) with
          | some v => simp [hget, hcb, dictGet_dictSet_self]
          | none => simp [hget, hcb, dictGet_dictSet_self]

theorem switch_is_enabled_caches (switch_is_active : String → Bool)
    (self : WaffleNamespace) (cache : RequestCacheNS) (switch_name : String) :
    dictGet
        (WaffleSwitchNamespace.is_enabled switch_is_active self cache switch_name).cache.switches
        (self._namespaced_name switch_name) =
      some (WaffleSwitchNamespace.is_enabled switch_is_active self cache switch_name).value ∧
    (WaffleSwitchNamespace.is_enabled switch_is_active self cache switch_name).cache.flags =
      cache.flags := by
  unfold WaffleSwitchNamespace.is_enabled
  cases hget : dictGet cache.switches (self._namespaced_name switch_name) with
  | some v => simp [hget]
  | none => simp [hget, dictGet_dictSet_self]

theorem flag_is_enabled_hit (flag_is_active : String → Bool)
    (cb : Option (String → Option Bool)) (self : WaffleNamespace)
    (cache : RequestCacheNS) (flag_name : String) (v : Bool)
    (h : dictGet cache.flags (self._namespaced_name flag_name) = some v) :
    WaffleFlagNamespace.is_enabled flag_is_active self cache flag_name cb =
      ⟨v, false, false, cache⟩ := by
  unfold WaffleFlagNamespace.is_enabled
  simp [h]

theorem switch_is_enabled_hit (switch_is_active : String → Bool) (self : WaffleNamespace)
    (cache : RequestCacheNS) (switch_name : String) (v : Bool)
    (h : dictGet cache.switches (self._namespaced_name switch_name) = some v) :
    WaffleSwitchNamespace.is_enabled switch_is_active self cache switch_name =
      ⟨v, false, cache⟩ := by
  unfold WaffleSwitchNamespace.is_enabled
  simp [h]

/-- Claim C2: per-request memoization.  For every flag or switch name, a
second `is_enabled` call within the same request (its cache state carried
over from the first call) returns the value of the first call, even when the
external store and the callback have changed in between, and the second call
consults neither the callback nor the external store (and leaves the cache
unchanged). -/
theorem flag_switch_memoization (fs1 fs2 ss1 ss2 : String → Bool)
    (cb1 cb2 : Option (String → Option Bool)) (self : WaffleNamespace)
    (cache : RequestCacheNS) (flag_name switch_name : String) :
    (WaffleFlagNamespace.is_enabled fs2 self
        (WaffleFlagNamespace.is_enabled fs1 self cache flag_name cb1).cache flag_name cb2 =
      ⟨(WaffleFlagNamespace.is_enabled fs1 self cache flag_name cb1).value, false, false,
        (WaffleFlagNamespace.is_enabled fs1 self cache flag_name cb1).cache⟩) ∧
    (WaffleSwitchNamespace.is_enabled ss2 self
        (WaffleSwitchNamespace.is_enabled ss1 self cache switch_name).cache switch_name =
      ⟨(WaffleSwitchNamespace.is_enabled ss1 self cache switch_name).value, false,
        (WaffleSwitchNamespace.is_enabled ss1 self cache switch_name).cache⟩) := by
  constructor
  · exact flag_is_enabled_hit fs2 cb2 self _ flag_name _
      (flag_is_enabled_caches fs1 cb1 self cache flag_name).1
  · exact switch_is_enabled_hit ss2 self _ switch_name _
      (switch_is_enabled_caches ss1 self cache switch_name).1

/-- Claim C9: the request cache is keyed only by the namespaced name inside
the one shared 'WaffleNamespace' request-cache namespace, not by object
identity: for two namespace instances with equal namespace strings (but
possibly different object identities `oid`), a value resolved through the
first instance is returned by the second instance's `is_enabled`, which
consults neither the callback nor the external store and leaves the cache
unchanged; likewise for switches. -/
theorem request_cache_shared_across_instances (a b : WaffleNamespace)
    (h : a.«namespace» = b.«namespace») (fs1 fs2 ss1 ss2 : String → Bool)
    (cb1 cb2 : Option (String → Option Bool)) (cache : RequestCacheNS)
    (flag_name switch_name : String) :
    (WaffleFlagNamespace.is_enabled fs2 b
        (WaffleFlagNamespace.is_enabled fs1 a cache flag_name cb1).cache flag_name cb2 =
      ⟨(WaffleFlagNamespace.is_enabled fs1 a cache flag_name cb1).value, false, false,
        (WaffleFlagNamespace.is_enabled fs1 a cache flag_name cb1).cache⟩) ∧
    (WaffleSwitchNamespace.is_enabled ss2 b
        (WaffleSwitchNamespace.is_enabled ss1 a cache switch_name).cache switch_name =
      ⟨(WaffleSwitchNamespace.is_enabled ss1 a cache switch_name).value, false,
        (WaffleSwitchNamespace.is_enabled ss1 a cache switch_name).cache⟩) := by
  have hname : ∀ n, b._namespaced_name n = a._namespaced_name n := by
    intro n
    unfold WaffleNamespace._namespaced_name
    rw [h]
  constructor
  · refine flag_is_enabled_hit fs2 cb2 b _ flag_name _ ?_
    rw [hname flag_name]
    exact (flag_is_enabled_caches fs1 cb1 a cache flag_name).1
  · refine switch_is_enabled_hit ss2 b _ switch_name _ ?_
    rw [hname switch_name]
    exact (switch_is_enabled_caches ss1 a cache switch_name).1

theorem charListLe_total : ∀ a b, charListLe a b = true ∨ charListLe b a = true
  | [], _ => Or.inl rfl
  | _ :: _, [] => Or.inr rfl
  | a :: as, b :: bs => by
      rcases lt_trichotomy a b with h | h | h
      · left; simp [charListLe, h]
      · subst h
        rcases charListLe_total as bs with ih | ih
        · left; simp [charListLe, ih]
        · right; simp [charListLe, ih]
      · right; simp [charListLe, h]

theorem charListLe_trans : ∀ a b c, charListLe a b = true → charListLe b c = true →
    charListLe a c = true
  | [], _, _, _, _ => rfl
  | _ :: _, [], _, h, _ => by simp [charListLe] at h
  | _ :: _, _ :: _, [], _, h => by simp [charListLe] at h
  | a :: as, b :: bs, c :: cs, h1, h2 => by
      rcases lt_trichotomy a b with hab | hab | hab
      · rcases lt_trichotomy b c with hbc | hbc | hbc
        · simp [charListLe, lt_trans hab hbc]
        · subst hbc; simp [charListLe, hab]
        · simp [charListLe, hbc, not_lt_of_lt hbc] at h2
      · subst hab
        rcases lt_trichotomy a c with hac | hac | hac
        · simp [charListLe, hac]
        · subst hac
          simp only [charListLe, if_neg (lt_irrefl a)] at h1 h2 ⊢
          exact charListLe_trans as bs cs h1 h2
        · simp [charListLe, hac, not_lt_of_lt hac] at h2
      · simp [charListLe, hab, not_lt_of_lt hab] at h1

theorem nameLe_total (a b : String × String) : nameLe a b ∨ nameLe b a :=
  charListLe_total a.2.data b.2.data

theorem nameLe_trans (a b c : String × String) (h1 : nameLe a b) (h2 : nameLe b c) :
    nameLe a c :=
  charListLe_trans a.2.data b.2.data c.2.data h1 h2

theorem string_data_append (s t : String) : (s ++ t).data = s.data ++ t.data := by
  cases s; cases t; rfl

theorem string_ext (s t : String) (h : s.data = t.data) : s = t := by
  cases s; cases t; exact congrArg String.mk h

theorem namespaced_data (x y : String) : (x ++ "." ++ y).data = x.data ++ '.' :: y.data := by
  rw [string_data_append, string_data_append, List.append_assoc]
  rfl

theorem append_dot_inj (a : List Char) :
    ∀ b c d : List Char, '.' ∉ a → '.' ∉ b →
      a ++ '.' :: c = b ++ '.' :: d → a = b ∧ c = d := by
  induction a with
  | nil =>
      intro b c d _ hb h
      cases b with
      | nil => simpa using h
      | cons x xs =>
          rw [List.nil_append, List.cons_append] at h
          injection h with h1 _
          exact absurd (h1 ▸ List.mem_cons_self x xs) hb
  | cons y ys ih =>
      intro b c d ha hb h
      cases b with
      | nil =>
          rw [List.cons_append, List.nil_append] at h
          injection h with h1 _
          exact absurd (h1 ▸ List.mem_cons_self y ys) ha
      | cons x xs =>
          rw [List.cons_append, List.cons_append] at h
          injection h with h1 h2
          have hrec := ih xs c d (fun hm => ha (List.mem_cons_of_mem _ hm))
            (fun hm => hb (List.mem_cons_of_mem _ hm)) h2
          exact ⟨by rw [h1, hrec.1], hrec.2⟩

/-- Claim C1: course-override precedence.  With no value memoized yet for the
namespaced flag name, (a) a force-on course override makes the course-aware
evaluation return true whatever the global flag store says (in particular
when it says off); (b) with no override record for the course, the result
equals the global flag value (so false when the global flag is off); (c)
evaluating the same flag with no course — through the plain `WaffleFlag`
facade, since the course-aware facade asserts on a missing course id —
returns the global flag value, hence false when the global flag is off. -/
theorem course_override_precedence
    (override_value : String → CourseKey → OverrideChoice) (flag_is_active : String → Bool)
    (self : WaffleFlag) (cache : RequestCacheNS) (c c' : CourseKey)
    (hfresh :
      dictGet cache.flags (self.waffle_namespace._namespaced_name self.flag_name) = none) :
    (override_value (self.waffle_namespace._namespaced_name self.flag_name) c =
        OverrideChoice.on →
      ∃ r, CourseOverrideWaffleFlag.is_enabled override_value flag_is_active self cache
          (CourseIdArg.courseKey c) = Except.ok r ∧ r.value = true) ∧
    (override_value (self.waffle_namespace._namespaced_name self.flag_name) c' =
        OverrideChoice.unset →
      ∃ r, CourseOverrideWaffleFlag.is_enabled override_value flag_is_active self cache
          (CourseIdArg.courseKey c') = Except.ok r ∧
        r.value = flag_is_active (self.waffle_namespace._namespaced_name self.flag_name)) ∧
    ((WaffleFlag.is_enabled flag_is_active self cache).value =
      flag_is_active (self.waffle_namespace._namespaced_name self.flag_name)) := by
  refine ⟨?_, ?_, ?_⟩
  · intro hov
    refine ⟨_, rfl, ?_⟩
    unfold WaffleFlagNamespace.is_enabled CourseOverrideWaffleFlag.course_override_callback
    simp [hfresh, hov]
  · intro hov
    refine ⟨_, rfl, ?_⟩
    unfold WaffleFlagNamespace.is_enabled CourseOverrideWaffleFlag.course_override_callback
    simp [hfresh, hov]
  · unfold WaffleFlag.is_enabled WaffleFlagNamespace.is_enabled
    simp [hfresh]

/-- Witness for claim C1: on the empty cache, with every global flag off and
a force-on override for course "course-A", the course-aware evaluation for
"course-A" returns true. -/
theorem course_override_precedence_witness :
    ∃ r, CourseOverrideWaffleFlag.is_enabled exOverrideStore exStoreOff exFlag exEmptyCache
        (CourseIdArg.courseKey "course-A") = Except.ok r ∧ r.value = true :=
  (course_override_precedence exOverrideStore exStoreOff exFlag exEmptyCache "course-A"
    "course-B" rfl).1 (by decide)

/-- Counterexample to claim C3: starting from the empty request cache with
the switch off in the external store, a scoped override that exits normally
leaves behind a request-cache entry for the switch that was not there before
entry, so the request cache is not exactly as it was before entry. -/
theorem override_mutates_fresh_cache :
    (WaffleSwitchNamespace.override exStoreOff exNamespace exEmptyCache "s" true
        (fun _ cache' => (cache', false))).cache ≠ exEmptyCache := by
  decide

/-- Claim C3 (amended): for every switch name, overridden value and starting
request-cache state, after the scope exits — normally or with an error
raised inside the body — the external store is exactly as before entry and
the request-cache entry for the namespaced switch holds the pre-override
effective value (the value `is_enabled` returned on entry); the request
cache is literally identical to its pre-entry state whenever it already held
an entry for that switch (but when it held none, an entry holding the
store's value remains, which is what the counterexample exhibits). -/
theorem override_restores_previous_value (switch_is_active : String → Bool)
    (self : WaffleNamespace) (cache : RequestCacheNS) (switch_name : String) (active : Bool)
    (body : (String → Bool) → RequestCacheNS → RequestCacheNS × Bool) :
    ((WaffleSwitchNamespace.override switch_is_active self cache switch_name active body).store =
      switch_is_active) ∧
    (dictGet (WaffleSwitchNamespace.override switch_is_active self cache switch_name active
          body).cache.switches (self._namespaced_name switch_name) =
      some (WaffleSwitchNamespace.is_enabled switch_is_active self cache switch_name).value) ∧
    (∀ v raised, dictGet cache.switches (self._namespaced_name switch_name) = some v →
      (WaffleSwitchNamespace.override switch_is_active self cache switch_name active
          (fun _ cache' => (cache', raised))).cache = cache) := by
  refine ⟨rfl, ?_, ?_⟩
  · unfold WaffleSwitchNamespace.override WaffleSwitchNamespace.override_for_request
    simp [dictGet_dictSet_self]
  · intro v raised h
    unfold WaffleSwitchNamespace.override WaffleSwitchNamespace.override_for_request
    rw [switch_is_enabled_hit switch_is_active self cache switch_name v h]
    simp [dictSet_dictSet, dictSet_self_of_get _ _ _ h]

/-- Witness for claim C3 (amended): a cache already holding the switch entry
is returned unchanged even when the body raises. -/
theorem override_restores_previous_value_witness :
    (WaffleSwitchNamespace.override exStoreOff exNamespace ⟨[("ns.s", true)], []⟩ "s" false
        (fun _ cache' => (cache', true))).cache = ⟨[("ns.s", true)], []⟩ :=
  (override_restores_previous_value exStoreOff exNamespace ⟨[("ns.s", true)], []⟩ "s" false
    (fun _ cache' => (cache', true))).2.2 true true rfl

/-- Counterexample to claim C4: composite keys are not injective in general —
the pairs ("a", "b.c") and ("a.b", "c") differ componentwise yet produce the
same composite key "a.b.c". -/
theorem namespaced_name_collision :
    WaffleNamespace._namespaced_name ⟨"a", 0⟩ "b.c" =
      WaffleNamespace._namespaced_name ⟨"a.b", 0⟩ "c" ∧
    ¬(("a" : String) = "a.b" ∧ ("b.c" : String) = "c") := by
  refine ⟨?_, by decide⟩
  decide

/-- Claim C4 (amended): the composite key equals the namespace, a dot, then
the name; and two (namespace, flag_name) pairs whose namespace strings
contain no dot have equal composite keys only if both components are
pairwise identical (without that restriction the counterexample pairs
("a", "b.c") and ("a.b", "c") collide). -/
theorem namespaced_name_format_injective_dotfree :
    (∀ (self : WaffleNamespace) (setting_name : String),
      self._namespaced_name setting_name = self.«namespace» ++ "." ++ setting_name) ∧
    (∀ (a b : WaffleNamespace) (n1 n2 : String),
      '.' ∉ a.«namespace».data → '.' ∉ b.«namespace».data →
      a._namespaced_name n1 = b._namespaced_name n2 →
      a.«namespace» = b.«namespace» ∧ n1 = n2) := by
  constructor
  · intro self setting_name
    rfl
  · intro a b n1 n2 ha hb h
    have hdata : a.«namespace».data ++ '.' :: n1.data =
        b.«namespace».data ++ '.' :: n2.data := by
      have hd := congrArg String.data h
      rwa [WaffleNamespace._namespaced_name, WaffleNamespace._namespaced_name,
        namespaced_data, namespaced_data] at hd
    obtain ⟨h1, h2⟩ := append_dot_inj _ _ _ _ ha hb hdata
    exact ⟨string_ext _ _ h1, string_ext _ _ h2⟩

/-- Witness for claim C4 (amended): dot-free namespaces "grades" on two
distinct instances, with equal composite keys for the name "my_flag". -/
theorem namespaced_name_format_injective_dotfree_witness :
    (⟨"grades", 0⟩ : WaffleNamespace).«namespace» =
        (⟨"grades", 1⟩ : WaffleNamespace).«namespace» ∧
      ("my_flag" : String) = "my_flag" :=
  namespaced_name_format_injective_dotfree.2 ⟨"grades", 0⟩ ⟨"grades", 1⟩ "my_flag" "my_flag"
    (by decide) (by decide) rfl

/-- Claim C5: fail-fast precondition on the course-aware facade.  For every
argument that is not a `CourseKey`, `CourseOverrideWaffleFlag.is_enabled`
fails with an `AssertionError` whose value is independent of the override
store, the flag store and the cache (so nothing was consulted); for every
`CourseKey` argument the assertion branch is unreachable and the call
succeeds. -/
theorem course_id_type_assertion
    (override_value : String → CourseKey → OverrideChoice) (flag_is_active : String → Bool)
    (self : WaffleFlag) (cache : RequestCacheNS) :
    (∀ arg : CourseIdArg, (∀ k, arg ≠ CourseIdArg.courseKey k) →
      CourseOverrideWaffleFlag.is_enabled override_value flag_is_active self cache arg =
        Except.error
          ("AssertionError: The course_id '" ++ arg.reprStr ++ "' must be a CourseKey.")) ∧
    (∀ k, ∃ r, CourseOverrideWaffleFlag.is_enabled override_value flag_is_active self cache
        (CourseIdArg.courseKey k) = Except.ok r) := by
  constructor
  · intro arg harg
    cases arg with
    | noneArg => rfl
    | courseKey k => exact absurd rfl (harg k)
    | otherObject s => rfl
  · intro k
    exact ⟨_, rfl⟩

/-- Witness for claim C5: the default argument `None` fails the assertion. -/
theorem course_id_type_assertion_witness :
    CourseOverrideWaffleFlag.is_enabled exOverrideStore exStoreOff exFlag exEmptyCache
        CourseIdArg.noneArg =
      Except.error ("AssertionError: The course_id '" ++
        CourseIdArg.reprStr CourseIdArg.noneArg ++ "' must be a CourseKey.") :=
  (course_id_type_assertion exOverrideStore exStoreOff exFlag exEmptyCache).1
    CourseIdArg.noneArg (fun _ h => CourseIdArg.noConfusion h)

/-- Claim C6: released_languages force-includes the default language code
and preserves catalog order — the result is exactly the catalog entries
whose code is in the released set extended with the default code, in catalog
order (a sublist of the catalog), and the spec's concrete example holds. -/
theorem released_languages_spec :
    (∀ (rel : List String) (default_code : String) (catalog : List lang_pref.Language),
      lang_pref.released_languages rel default_code catalog =
        catalog.filter (fun li => decide (li.1 ∈ rel ∨ li.1 = default_code))) ∧
    (∀ (rel : List String) (default_code : String) (catalog : List lang_pref.Language),
      List.Sublist (lang_pref.released_languages rel default_code catalog) catalog) ∧
    (lang_pref.released_languages ["fr"] "en"
        [("en", "English"), ("fr", "Français"), ("de", "Deutsch")] =
      [("en", "English"), ("fr", "Français")]) := by
  refine ⟨?_, ?_, by decide⟩
  · intro rel d catalog
    unfold lang_pref.released_languages
    by_cases hd : d ∈ rel
    · rw [if_neg (not_not_intro hd)]
      refine List.filter_congr ?_
      intro li _
      refine decide_eq_decide.mpr ?_
      constructor
      · exact Or.inl
      · rintro (hm | he)
        · exact hm
        · exact he ▸ hd
    · rw [if_pos hd]
      refine List.filter_congr ?_
      intro li _
      refine decide_eq_decide.mpr ?_
      rw [(List.perm_insertionSort pyLe (rel ++ [d])).mem_iff, List.mem_append,
        List.mem_singleton]
  · intro rel d catalog
    unfold lang_pref.released_languages
    exact List.filter_sublist _

/-- Claim C7: migration seeding.  Against the empty table exactly one row
with enabled = true is inserted; against any non-empty table the step is a
no-op (in particular repeated runs change nothing, and an existing
enabled = false row is not replaced by a canonical one). -/
theorem forwards_spec :
    (forwards [] = [⟨true⟩]) ∧
    (∀ t : List RateLimitRow, t ≠ [] → forwards t = t) ∧
    (∀ t : List RateLimitRow, forwards (forwards t) = forwards t) ∧
    (forwards [⟨false⟩] = [⟨false⟩]) := by
  refine ⟨rfl, ?_, ?_, rfl⟩
  · intro t ht
    cases t with
    | nil => exact absurd rfl ht
    | cons r rest => rfl
  · intro t
    cases t with
    | nil => rfl
    | cons r rest => rfl

/-- Witness for claim C7: a table holding one disabled row is left alone. -/
theorem forwards_spec_witness : forwards [⟨false⟩] = [⟨false⟩] :=
  forwards_spec.2.1 [⟨false⟩] (List.cons_ne_nil _ _)

/-- Claim C8: all_languages determinism and ordering.  The result is a
permutation of the catalog with display names translated by the active
locale's translation function, sorted by translated name; equal translation
functions yield identical results; and a concrete catalog ordered one way
under the identity locale is ordered the other way under a German locale. -/
theorem all_languages_spec :
    (∀ (g1 g2 : String → String) (catalog : List lang_pref.Language),
      (∀ s, g1 s = g2 s) →
        lang_pref.all_languages g1 catalog = lang_pref.all_languages g2 catalog) ∧
    (∀ (g : String → String) (catalog : List lang_pref.Language),
      List.Perm (lang_pref.all_languages g catalog)
        (catalog.map (fun lang => (lang.1, g lang.2)))) ∧
    (∀ (g : String → String) (catalog : List lang_pref.Language),
      List.Pairwise nameLe (lang_pref.all_languages g catalog)) ∧
    ((lang_pref.all_languages (fun s => s) exCatalog).map Prod.fst ≠
      (lang_pref.all_languages exGettextDe exCatalog).map Prod.fst) := by
  refine ⟨?_, ?_, ?_, by decide⟩
  · intro g1 g2 catalog hg
    rw [funext hg]
  · intro g catalog
    exact List.perm_insertionSort nameLe _
  · intro g catalog
    haveI : IsTotal (String × String) nameLe := ⟨nameLe_total⟩
    haveI : IsTrans (String × String) nameLe := ⟨nameLe_trans⟩
    exact List.sorted_insertionSort nameLe _

/-- Witness for claim C8: the extensionality hypothesis discharged at the
identity translation function on the concrete catalog. -/
theorem all_languages_spec_witness :
    lang_pref.all_languages (fun s => s) exCatalog =
      lang_pref.all_languages (fun s => s) exCatalog :=
  all_languages_spec.1 (fun s => s) (fun s => s) exCatalog (fun _ => rfl)

/-- Claim C10: constructing a WaffleNamespace with an empty (falsy)
namespace string fails the `assert namespace` with an AssertionError; every
successfully constructed instance carries a non-empty namespace string, and
its composite keys are that non-empty namespace, a dot, then the name — so
no key with an empty namespace prefix is ever produced. -/
theorem namespace_init_requires_nonempty :
    (∀ oid, WaffleNamespace.init "" oid =
      Except.error "AssertionError: The namespace is required.") ∧
    (∀ ns oid self, WaffleNamespace.init ns oid = Except.ok self →
      self.«namespace» ≠ "" ∧
      ∀ setting_name, self._namespaced_name setting_name =
        self.«namespace» ++ "." ++ setting_name) := by
  constructor
  · intro oid
    rfl
  · intro ns oid self h
    by_cases hns : ns = ""
    · simp [WaffleNamespace.init, hns] at h
    · simp only [WaffleNamespace.init, if_neg hns, Except.ok.injEq] at h
      subst h
      exact ⟨hns, fun _ => rfl⟩

/-- Witness for claim C10: the namespace "grades" is accepted and carried on
the constructed instance. -/
theorem namespace_init_requires_nonempty_witness :
    (⟨"grades", 0⟩ : WaffleNamespace).«namespace» ≠ "" :=
  (namespace_init_requires_nonempty.2 "grades" 0 ⟨"grades", 0⟩ rfl).1

/-- Witness for claim C9: two distinct instances sharing the namespace
string "ns", evaluated at concrete stores on the empty cache. -/
theorem request_cache_shared_across_instances_witness :
    WaffleFlagNamespace.is_enabled exStoreOff exNamespaceB
        (WaffleFlagNamespace.is_enabled (fun _ => true) exNamespace exEmptyCache "f" none).cache
        "f" none =
      ⟨true, false, false,
        (WaffleFlagNamespace.is_enabled (fun _ => true) exNamespace exEmptyCache "f" none).cache⟩ :=
  (request_cache_shared_across_instances exNamespace exNamespaceB rfl (fun _ => true) exStoreOff
    (fun _ => true) exStoreOff none none exEmptyCache "f" "s").1.trans (by decide)
